import Mathlib

/-!
Verification development for the PodScribe audio-analysis application
(`src/app.py`).  The session lifecycle controller, the memoized
transcription/derived-artifact layer, the chat handler and the
interactive-transcript renderer are embedded shallowly: Streamlit's
`st.session_state` becomes an explicit `SessionState` record, the
`@st.cache_data` decorator becomes an explicit memo table threaded
through a `World` record, and the external collaborators (whisper,
the OpenRouter chat-completion client) become function parameters
collected in an `Env` record returning `Except`.
-/

namespace PodScribe

/-- Errors surfaced by the external collaborators: `api` models
`openai.APIError`, `generic` models any other raised exception. -/
inductive AppError
  | api (msg : String)
  | generic (msg : String)
deriving DecidableEq, Repr

/-- One word of a whisper transcription segment: `word['word']` and
`word['start']` in `create_interactive_transcript`. -/
structure Word where
  word : String
  start : Rat
deriving DecidableEq, Repr

/-- One segment of a whisper transcription result (`segment['words']`).
A missing `words` key behaves as the empty list (`segment.get('words', [])`). -/
structure Segment where
  words : List Word
deriving DecidableEq, Repr

/-- The whisper result dict.  `text = none` models a dict without the
`"text"` key; `segments` models `result.get('segments', [])`. -/
structure TranscriptionResult where
  text : Option String
  segments : List Segment
deriving DecidableEq, Repr

/-- Role of a chat message (`message["role"]`). -/
inductive ChatRole
  | user
  | assistant
deriving DecidableEq, Repr

/-- An entry of `st.session_state.messages`. -/
structure ChatMessage where
  role : ChatRole
  content : String
deriving DecidableEq, Repr

/-- `SUPPORTED_LANGUAGES` from `app.py`: display name to whisper
language code (`none` = auto-detect). -/
def SUPPORTED_LANGUAGES : List (String × Option String) :=
  [("Auto-Detect", none), ("English", some "en"), ("Hindi", some "hi"),
   ("Spanish", some "es"), ("French", some "fr"), ("German", some "de"),
   ("Japanese", some "ja"), ("Korean", some "ko"), ("Urdu", some "ur")]

/-- `TEMP_AUDIO_FILENAME` from `app.py`. -/
def TEMP_AUDIO_FILENAME : String := "temp_audio_file.mp3"

/-- Association-list lookup by decidable key equality: dict indexing /
memo-table lookup for the `@st.cache_data` model. -/
def lookupKey {α β : Type} [DecidableEq α] : List (α × β) → α → Option β
  | [], _ => none
  | p :: rest, a => if p.1 = a then some p.2 else lookupKey rest a

/-- A file delivered by `st.file_uploader`: a filename plus its bytes. -/
structure UploadedFile where
  name : String
  content : String
deriving DecidableEq, Repr

/-- `st.session_state` fields used by `app.py`.  `last_uploaded_file = none`
models the key being absent from the session dict. -/
structure SessionState where
  last_uploaded_file : Option String
  analysis_complete : Bool
  transcript_result : Option TranscriptionResult
  summary : String
  insights : String
  sentiment : String
  questions : String
  diarized_transcript : String
  messages : List ChatMessage
deriving DecidableEq, Repr

/-- The five derived-artifact operations, in the order the Start Analysis
handler invokes them. -/
inductive ArtifactOp
  | summary
  | insights
  | sentiment
  | questions
  | diarize
deriving DecidableEq, Repr

/-- The order in which the Start Analysis handler calls the five
derived-artifact functions. -/
def canonical_order : List ArtifactOp :=
  [ArtifactOp.summary, ArtifactOp.insights, ArtifactOp.sentiment,
   ArtifactOp.questions, ArtifactOp.diarize]

/-- Process-wide state outside the session dict: the single fixed-name
temporary audio file (`fs` is its content, `none` = absent), the
`@st.cache_data` memo tables of each cached function, and
instrumentation traces (actual whisper transcriptions performed,
chat-completion client calls issued, cached-function invocations). -/
structure World where
  fs : Option String
  transcribe_cache : List ((String × Option String × String) × TranscriptionResult)
  summary_cache : List (String × String)
  insights_cache : List (String × String)
  sentiment_cache : List (String × String)
  questions_cache : List (String × String)
  diarize_cache : List (String × String)
  whisper_runs : Nat
  client_calls : List ArtifactOp
  invocations : List ArtifactOp
deriving DecidableEq, Repr

/-- The external collaborators: the whisper model (a function of the audio
bytes, language code and model name) and the six chat-completion prompts.
Each may fail with an `AppError`. -/
structure Env where
  whisper_transcribe : String → Option String → String → Except AppError TranscriptionResult
  summary_model : String → Except AppError String
  insights_model : String → Except AppError String
  sentiment_model : String → Except AppError String
  questions_model : String → Except AppError String
  diarize_model : String → Except AppError String
  qa_model : String → String → Except AppError String

/-- `@st.cache_data` applied to one of the five derived-artifact functions:
look the transcript up in the memo table; on a miss call the underlying
chat-completion client and store a successful result (exceptions are not
cached).  The boolean reports whether the underlying client was called. -/
def memoCall (impl : String → Except AppError String)
    (cache : List (String × String)) (t : String) :
    Except AppError String × List (String × String) × Bool :=
  match lookupKey cache t with
  | some v => (Except.ok v, cache, false)
  | none =>
    match impl t with
    | Except.ok v => (Except.ok v, (t, v) :: cache, true)
    | Except.error e => (Except.error e, cache, true)

/-- `transcribe_audio` from `app.py` together with its `@st.cache_data`
decorator: memoized on the argument tuple `(file_path, language_code,
model_name)`.  On a miss whisper transcribes the current content of the
temporary file (`fs`); the boolean reports whether whisper actually ran. -/
def transcribe_audio (env : Env)
    (cache : List ((String × Option String × String) × TranscriptionResult))
    (fs : Option String) (file_path : String) (language_code : Option String)
    (model_name : String) :
    Except AppError TranscriptionResult
      × List ((String × Option String × String) × TranscriptionResult) × Bool :=
  match lookupKey cache (file_path, language_code, model_name) with
  | some r => (Except.ok r, cache, false)
  | none =>
    match fs with
    | none => (Except.error (AppError.generic "audio file not found"), cache, true)
    | some content =>
      match env.whisper_transcribe content language_code model_name with
      | Except.ok r => (Except.ok r, ((file_path, language_code, model_name), r) :: cache, true)
      | Except.error e => (Except.error e, cache, true)

/-- `model_to_use` from the Start Analysis handler:
`"small" if selected_language == "Hindi" else "base"`. -/
def model_to_use (selected_language : String) : String :=
  if selected_language = "Hindi" then "small" else "base"

/-- Record one cached-function invocation and, when `ran` is true, one
underlying chat-completion client call. -/
def record_call (w : World) (op : ArtifactOp) (ran : Bool) : World :=
  { w with invocations := w.invocations ++ [op],
           client_calls := w.client_calls ++ (if ran then [op] else []) }

/-- `st.session_state.diarized_transcript = get_diarized_transcript(plain)`
followed by `st.session_state.analysis_complete = True`; an exception
aborts the run (caught by the handler's `except` clauses). -/
def stage_diarize (env : Env) (plain : String) (s : SessionState) (w : World) :
    SessionState × World :=
  let t := memoCall env.diarize_model w.diarize_cache plain
  let w1 := { record_call w ArtifactOp.diarize t.2.2 with diarize_cache := t.2.1 }
  match t.1 with
  | Except.error _ => (s, w1)
  | Except.ok v => ({ s with diarized_transcript := v, analysis_complete := true }, w1)

/-- `st.session_state.questions = get_suggested_questions(plain)` and
continuation. -/
def stage_questions (env : Env) (plain : String) (s : SessionState) (w : World) :
    SessionState × World :=
  let t := memoCall env.questions_model w.questions_cache plain
  let w1 := { record_call w ArtifactOp.questions t.2.2 with questions_cache := t.2.1 }
  match t.1 with
  | Except.error _ => (s, w1)
  | Except.ok v => stage_diarize env plain { s with questions := v } w1

/-- `st.session_state.sentiment = get_sentiment(plain)` and continuation. -/
def stage_sentiment (env : Env) (plain : String) (s : SessionState) (w : World) :
    SessionState × World :=
  let t := memoCall env.sentiment_model w.sentiment_cache plain
  let w1 := { record_call w ArtifactOp.sentiment t.2.2 with sentiment_cache := t.2.1 }
  match t.1 with
  | Except.error _ => (s, w1)
  | Except.ok v => stage_questions env plain { s with sentiment := v } w1

/-- `st.session_state.insights = get_insights(plain)` and continuation. -/
def stage_insights (env : Env) (plain : String) (s : SessionState) (w : World) :
    SessionState × World :=
  let t := memoCall env.insights_model w.insights_cache plain
  let w1 := { record_call w ArtifactOp.insights t.2.2 with insights_cache := t.2.1 }
  match t.1 with
  | Except.error _ => (s, w1)
  | Except.ok v => stage_sentiment env plain { s with insights := v } w1

/-- `st.session_state.summary = get_summary(plain)` and continuation: the
head of the five sequential derived-artifact calls. -/
def stage_summary (env : Env) (plain : String) (s : SessionState) (w : World) :
    SessionState × World :=
  let t := memoCall env.summary_model w.summary_cache plain
  let w1 := { record_call w ArtifactOp.summary t.2.2 with summary_cache := t.2.1 }
  match t.1 with
  | Except.error _ => (s, w1)
  | Except.ok v => stage_insights env plain { s with summary := v } w1

/-- The `try:` body of the Start Analysis handler: write the uploaded bytes
to the fixed-name temporary file, pick the whisper model, call the cached
`transcribe_audio`, and — mirroring
`if transcription_result and "text" in transcription_result:` which for a
dict is equivalent to the `"text"` key being present — either run the five
derived-artifact stages over `transcription_result["text"]` or fall to the
no-text warning branch.  Any exception path simply returns the state built
so far (caught by the handler's `except` clauses). -/
def run_analysis_body (env : Env) (file : UploadedFile) (selected_language : String)
    (s : SessionState) (w : World) : SessionState × World :=
  let w0 := { w with fs := some file.content }
  match lookupKey SUPPORTED_LANGUAGES selected_language with
  | none => (s, w0)
  | some language_code =>
    let t := transcribe_audio env w0.transcribe_cache w0.fs TEMP_AUDIO_FILENAME
      language_code (model_to_use selected_language)
    let w1 := { w0 with transcribe_cache := t.2.1,
                        whisper_runs := w0.whisper_runs + (if t.2.2 then 1 else 0) }
    match t.1 with
    | Except.error _ => (s, w1)
    | Except.ok r =>
      match r.text with
      | none => (s, w1)
      | some plain => stage_summary env plain { s with transcript_result := some r } w1

/-- The session-state initialisation at the top of the Start Analysis
handler (lines 271-278 of `app.py`): everything except
`last_uploaded_file` is reset. -/
def reset_for_analysis (s : SessionState) : SessionState :=
  { s with analysis_complete := false, transcript_result := none,
           summary := "", insights := "", sentiment := "", questions := "",
           diarized_transcript := "", messages := [] }

/-- The `finally:` block: `if os.path.exists(TEMP_AUDIO_FILENAME):
os.remove(TEMP_AUDIO_FILENAME)`. -/
def cleanup_temp (w : World) : World :=
  if w.fs.isSome then { w with fs := none } else w

/-- The whole Start Analysis handler: reset the session fields, run the
try body, and in all cases execute the `finally:` cleanup. -/
def start_analysis (env : Env) (file : UploadedFile) (selected_language : String)
    (s : SessionState) (w : World) : SessionState × World :=
  let p := run_analysis_body env file selected_language (reset_for_analysis s) w
  (p.1, cleanup_temp p.2)

/-- The sidebar upload handler (lines 256-261):
`if 'last_uploaded_file' not in st.session_state or
st.session_state.last_uploaded_file != uploaded_file.name`, with key
absence modelled as `none`. -/
def handle_upload (file : UploadedFile) (s : SessionState) : SessionState :=
  if s.last_uploaded_file ≠ some file.name then
    { s with analysis_complete := false, last_uploaded_file := some file.name }
  else s

/-- The chat input handler (lines 363-371): append the user message, then
call `get_qa_response(st.session_state.transcript_result["text"], prompt)`
(`get_qa_response` is not cached) and append the assistant reply.  A
`KeyError` on the transcript lookup or an exception from the client aborts
the rerun after the user message was appended. -/
def handle_chat_input (env : Env) (prompt : String) (s : SessionState) : SessionState :=
  let s1 := { s with messages := s.messages ++ [ChatMessage.mk ChatRole.user prompt] }
  match s.transcript_result with
  | none => s1
  | some r =>
    match r.text with
    | none => s1
    | some t =>
      match env.qa_model t prompt with
      | Except.error _ => s1
      | Except.ok resp =>
        { s1 with messages := s1.messages ++ [ChatMessage.mk ChatRole.assistant resp] }

/-- The Clear Chat History button (line 376): `st.session_state.messages = []`. -/
def clear_chat_history (s : SessionState) : SessionState :=
  { s with messages := [] }

/-- Leading part of each clickable span emitted by
`create_interactive_transcript`, up to the interpolated start time. -/
def span_head : String :=
  "<span class=\"interactive-word\" style=\"cursor: pointer; padding: 2px;\" onclick=\"document.querySelector(\x27audio\x27).currentTime="

/-- Middle part of each clickable span, between the start time and the
word text. -/
def span_mid : String :=
  "; document.querySelector(\x27audio\x27).play();\">"

/-- One clickable token: the span emitted for a single word, carrying that
word's own start time in its `onclick` handler. -/
def word_span (w : Word) : String :=
  span_head ++ toString w.start ++ span_mid ++ w.word ++ " </span>"

/-- The opening `<div>` of the interactive transcript. -/
def html_head : String :=
  "<div style=\"line-height: 2.0; font-size: 16px; color: #C9D1D9;\">"

/-- `create_interactive_transcript` from `app.py`: the nested
segment/word loops appending one clickable span per word. -/
def create_interactive_transcript (r : TranscriptionResult) : String :=
  let html := html_head
  let html := r.segments.foldl
    (fun acc seg => seg.words.foldl (fun acc2 w => acc2 ++ word_span w) acc) html
  html ++ "</div>"

/-- All words of a segment list in segment-then-word order. -/
def flat_words : List Segment → List Word
  | [] => []
  | seg :: rest => seg.words ++ flat_words rest

/-- Concatenation of the clickable spans of a word list, one span per
word, in order. -/
def spansConcat : List Word → String
  | [] => ""
  | w :: ws => word_span w ++ spansConcat ws

/-- A fresh session dict (no keys set yet). -/
def emptySession : SessionState :=
  { last_uploaded_file := none, analysis_complete := false, transcript_result := none,
    summary := "", insights := "", sentiment := "", questions := "",
    diarized_transcript := "", messages := [] }

/-- A fresh process: no temp file, empty caches, no calls recorded. -/
def emptyWorld : World :=
  { fs := none, transcribe_cache := [], summary_cache := [], insights_cache := [],
    sentiment_cache := [], questions_cache := [], diarize_cache := [],
    whisper_runs := 0, client_calls := [], invocations := [] }

/-- A deterministic, always-succeeding environment used for concrete runs:
whisper prepends `T:` to the audio bytes, each prompt prepends a tag to the
transcript. -/
def okEnv : Env where
  whisper_transcribe := fun content _ _ =>
    Except.ok (TranscriptionResult.mk (some ("T:" ++ content)) [])
  summary_model := fun t => Except.ok ("S:" ++ t)
  insights_model := fun t => Except.ok ("I:" ++ t)
  sentiment_model := fun t => Except.ok ("E:" ++ t)
  questions_model := fun t => Except.ok ("Q:" ++ t)
  diarize_model := fun t => Except.ok ("D:" ++ t)
  qa_model := fun t q => Except.ok ("A:" ++ t ++ ":" ++ q)

/-- A session that already went through a full successful analysis of some
earlier upload: artifacts and chat history populated. -/
def sPrev : SessionState where
  last_uploaded_file := some "a.mp3"
  analysis_complete := true
  transcript_result := some (TranscriptionResult.mk (some "old text") [])
  summary := "old summary"
  insights := "old insights"
  sentiment := "old sentiment"
  questions := "old questions"
  diarized_transcript := "old diarized"
  messages := [ChatMessage.mk ChatRole.user "hi", ChatMessage.mk ChatRole.assistant "hello"]

/-- A completed session ready for chat turns. -/
def chatSession : SessionState :=
  { emptySession with analysis_complete := true,
                      transcript_result := some (TranscriptionResult.mk (some "t") []) }

/-! ### Helper lemmas about the `finally:` cleanup -/

@[simp]
theorem cleanup_temp_fs (w : World) : (cleanup_temp w).fs = none := by
  cases h : w.fs <;> simp [cleanup_temp, h]

@[simp]
theorem cleanup_temp_invocations (w : World) :
    (cleanup_temp w).invocations = w.invocations := by
  cases h : w.fs <;> simp [cleanup_temp, h]

@[simp]
theorem cleanup_temp_client_calls (w : World) :
    (cleanup_temp w).client_calls = w.client_calls := by
  cases h : w.fs <;> simp [cleanup_temp, h]

@[simp]
theorem cleanup_temp_transcribe_cache (w : World) :
    (cleanup_temp w).transcribe_cache = w.transcribe_cache := by
  cases h : w.fs <;> simp [cleanup_temp, h]

@[simp]
theorem cleanup_temp_whisper_runs (w : World) :
    (cleanup_temp w).whisper_runs = w.whisper_runs := by
  cases h : w.fs <;> simp [cleanup_temp, h]

/-! ### Reduction lemmas for the five derived-artifact stages -/

theorem stage_diarize_of_error {env : Env} {plain : String} {w : World}
    {e : AppError} {c : List (String × String)} {b : Bool} (s : SessionState)
    (h : memoCall env.diarize_model w.diarize_cache plain = (Except.error e, c, b)) :
    stage_diarize env plain s w =
      (s, { record_call w ArtifactOp.diarize b with diarize_cache := c }) := by
  simp [stage_diarize, h]

theorem stage_diarize_of_ok {env : Env} {plain : String} {w : World}
    {v : String} {c : List (String × String)} {b : Bool} (s : SessionState)
    (h : memoCall env.diarize_model w.diarize_cache plain = (Except.ok v, c, b)) :
    stage_diarize env plain s w =
      ({ s with diarized_transcript := v, analysis_complete := true },
       { record_call w ArtifactOp.diarize b with diarize_cache := c }) := by
  simp [stage_diarize, h]

theorem stage_questions_of_error {env : Env} {plain : String} {w : World}
    {e : AppError} {c : List (String × String)} {b : Bool} (s : SessionState)
    (h : memoCall env.questions_model w.questions_cache plain = (Except.error e, c, b)) :
    stage_questions env plain s w =
      (s, { record_call w ArtifactOp.questions b with questions_cache := c }) := by
  simp [stage_questions, h]

theorem stage_questions_of_ok {env : Env} {plain : String} {w : World}
    {v : String} {c : List (String × String)} {b : Bool} (s : SessionState)
    (h : memoCall env.questions_model w.questions_cache plain = (Except.ok v, c, b)) :
    stage_questions env plain s w =
      stage_diarize env plain { s with questions := v }
        { record_call w ArtifactOp.questions b with questions_cache := c } := by
  simp [stage_questions, h]

theorem stage_sentiment_of_error {env : Env} {plain : String} {w : World}
    {e : AppError} {c : List (String × String)} {b : Bool} (s : SessionState)
    (h : memoCall env.sentiment_model w.sentiment_cache plain = (Except.error e, c, b)) :
    stage_sentiment env plain s w =
      (s, { record_call w ArtifactOp.sentiment b with sentiment_cache := c }) := by
  simp [stage_sentiment, h]

theorem stage_sentiment_of_ok {env : Env} {plain : String} {w : World}
    {v : String} {c : List (String × String)} {b : Bool} (s : SessionState)
    (h : memoCall env.sentiment_model w.sentiment_cache plain = (Except.ok v, c, b)) :
    stage_sentiment env plain s w =
      stage_questions env plain { s with sentiment := v }
        { record_call w ArtifactOp.sentiment b with sentiment_cache := c } := by
  simp [stage_sentiment, h]

theorem stage_insights_of_error {env : Env} {plain : String} {w : World}
    {e : AppError} {c : List (String × String)} {b : Bool} (s : SessionState)
    (h : memoCall env.insights_model w.insights_cache plain = (Except.error e, c, b)) :
    stage_insights env plain s w =
      (s, { record_call w ArtifactOp.insights b with insights_cache := c }) := by
  simp [stage_insights, h]

theorem stage_insights_of_ok {env : Env} {plain : String} {w : World}
    {v : String} {c : List (String × String)} {b : Bool} (s : SessionState)
    (h : memoCall env.insights_model w.insights_cache plain = (Except.ok v, c, b)) :
    stage_insights env plain s w =
      stage_sentiment env plain { s with insights := v }
        { record_call w ArtifactOp.insights b with insights_cache := c } := by
  simp [stage_insights, h]

theorem stage_summary_of_error {env : Env} {plain : String} {w : World}
    {e : AppError} {c : List (String × String)} {b : Bool} (s : SessionState)
    (h : memoCall env.summary_model w.summary_cache plain = (Except.error e, c, b)) :
    stage_summary env plain s w =
      (s, { record_call w ArtifactOp.summary b with summary_cache := c }) := by
  simp [stage_summary, h]

theorem stage_summary_of_ok {env : Env} {plain : String} {w : World}
    {v : String} {c : List (String × String)} {b : Bool} (s : SessionState)
    (h : memoCall env.summary_model w.summary_cache plain = (Except.ok v, c, b)) :
    stage_summary env plain s w =
      stage_insights env plain { s with summary := v }
        { record_call w ArtifactOp.summary b with summary_cache := c } := by
  simp [stage_summary, h]

/-! ### Preservation lemmas: the artifact stages never touch the temp file,
the transcription cache or the whisper-run counter -/

/-- World components untouched by the derived-artifact stages. -/
def preserves (w1 w2 : World) : Prop :=
  w2.fs = w1.fs ∧ w2.transcribe_cache = w1.transcribe_cache ∧
    w2.whisper_runs = w1.whisper_runs

theorem preserves_trans {a b c : World} (h1 : preserves a b) (h2 : preserves b c) :
    preserves a c := by
  obtain ⟨x1, x2, x3⟩ := h1
  obtain ⟨y1, y2, y3⟩ := h2
  exact ⟨y1.trans x1, y2.trans x2, y3.trans x3⟩

theorem stage_diarize_preserves (env : Env) (plain : String) (s : SessionState)
    (w : World) : preserves w (stage_diarize env plain s w).2 := by
  rcases h : memoCall env.diarize_model w.diarize_cache plain with ⟨res, c, b⟩
  cases res with
  | error e => rw [stage_diarize_of_error s h]; simp [preserves, record_call]
  | ok v => rw [stage_diarize_of_ok s h]; simp [preserves, record_call]

theorem stage_questions_preserves (env : Env) (plain : String) (s : SessionState)
    (w : World) : preserves w (stage_questions env plain s w).2 := by
  rcases h : memoCall env.questions_model w.questions_cache plain with ⟨res, c, b⟩
  cases res with
  | error e => rw [stage_questions_of_error s h]; simp [preserves, record_call]
  | ok v =>
    rw [stage_questions_of_ok s h]
    exact preserves_trans (by simp [preserves, record_call]) (stage_diarize_preserves ..)

theorem stage_sentiment_preserves (env : Env) (plain : String) (s : SessionState)
    (w : World) : preserves w (stage_sentiment env plain s w).2 := by
  rcases h : memoCall env.sentiment_model w.sentiment_cache plain with ⟨res, c, b⟩
  cases res with
  | error e => rw [stage_sentiment_of_error s h]; simp [preserves, record_call]
  | ok v =>
    rw [stage_sentiment_of_ok s h]
    exact preserves_trans (by simp [preserves, record_call]) (stage_questions_preserves ..)

theorem stage_insights_preserves (env : Env) (plain : String) (s : SessionState)
    (w : World) : preserves w (stage_insights env plain s w).2 := by
  rcases h : memoCall env.insights_model w.insights_cache plain with ⟨res, c, b⟩
  cases res with
  | error e => rw [stage_insights_of_error s h]; simp [preserves, record_call]
  | ok v =>
    rw [stage_insights_of_ok s h]
    exact preserves_trans (by simp [preserves, record_call]) (stage_sentiment_preserves ..)

theorem stage_summary_preserves (env : Env) (plain : String) (s : SessionState)
    (w : World) : preserves w (stage_summary env plain s w).2 := by
  rcases h : memoCall env.summary_model w.summary_cache plain with ⟨res, c, b⟩
  cases res with
  | error e => rw [stage_summary_of_error s h]; simp [preserves, record_call]
  | ok v =>
    rw [stage_summary_of_ok s h]
    exact preserves_trans (by simp [preserves, record_call]) (stage_insights_preserves ..)

/-! ### The artifact stages never overwrite the stored transcript -/

theorem stage_diarize_transcript (env : Env) (plain : String) (s : SessionState)
    (w : World) :
    (stage_diarize env plain s w).1.transcript_result = s.transcript_result := by
  rcases h : memoCall env.diarize_model w.diarize_cache plain with ⟨res, c, b⟩
  cases res with
  | error e => rw [stage_diarize_of_error s h]
  | ok v => rw [stage_diarize_of_ok s h]

theorem stage_questions_transcript (env : Env) (plain : String) (s : SessionState)
    (w : World) :
    (stage_questions env plain s w).1.transcript_result = s.transcript_result := by
  rcases h : memoCall env.questions_model w.questions_cache plain with ⟨res, c, b⟩
  cases res with
  | error e => rw [stage_questions_of_error s h]
  | ok v => rw [stage_questions_of_ok s h, stage_diarize_transcript]

theorem stage_sentiment_transcript (env : Env) (plain : String) (s : SessionState)
    (w : World) :
    (stage_sentiment env plain s w).1.transcript_result = s.transcript_result := by
  rcases h : memoCall env.sentiment_model w.sentiment_cache plain with ⟨res, c, b⟩
  cases res with
  | error e => rw [stage_sentiment_of_error s h]
  | ok v => rw [stage_sentiment_of_ok s h, stage_questions_transcript]

theorem stage_insights_transcript (env : Env) (plain : String) (s : SessionState)
    (w : World) :
    (stage_insights env plain s w).1.transcript_result = s.transcript_result := by
  rcases h : memoCall env.insights_model w.insights_cache plain with ⟨res, c, b⟩
  cases res with
  | error e => rw [stage_insights_of_error s h]
  | ok v => rw [stage_insights_of_ok s h, stage_sentiment_transcript]

theorem stage_summary_transcript (env : Env) (plain : String) (s : SessionState)
    (w : World) :
    (stage_summary env plain s w).1.transcript_result = s.transcript_result := by
  rcases h : memoCall env.summary_model w.summary_cache plain with ⟨res, c, b⟩
  cases res with
  | error e => rw [stage_summary_of_error s h]
  | ok v => rw [stage_summary_of_ok s h, stage_insights_transcript]

/-! ### Invocation traces: the stages log a prefix of the canonical order -/

theorem stage_diarize_invocations (env : Env) (plain : String) (s : SessionState)
    (w : World) :
    (stage_diarize env plain s w).2.invocations =
      w.invocations ++ [ArtifactOp.diarize] := by
  rcases h : memoCall env.diarize_model w.diarize_cache plain with ⟨res, c, b⟩
  cases res with
  | error e => rw [stage_diarize_of_error s h]; simp [record_call]
  | ok v => rw [stage_diarize_of_ok s h]; simp [record_call]

theorem stage_questions_invocations (env : Env) (plain : String) (s : SessionState)
    (w : World) :
    ∃ n, (stage_questions env plain s w).2.invocations =
      w.invocations ++ ([ArtifactOp.questions, ArtifactOp.diarize].take n) := by
  rcases h : memoCall env.questions_model w.questions_cache plain with ⟨res, c, b⟩
  cases res with
  | error e =>
    refine ⟨1, ?_⟩
    rw [stage_questions_of_error s h]; simp [record_call]
  | ok v =>
    refine ⟨2, ?_⟩
    rw [stage_questions_of_ok s h, stage_diarize_invocations]
    simp [record_call]

theorem stage_sentiment_invocations (env : Env) (plain : String) (s : SessionState)
    (w : World) :
    ∃ n, (stage_sentiment env plain s w).2.invocations =
      w.invocations ++
        ([ArtifactOp.sentiment, ArtifactOp.questions, ArtifactOp.diarize].take n) := by
  rcases h : memoCall env.sentiment_model w.sentiment_cache plain with ⟨res, c, b⟩
  cases res with
  | error e =>
    refine ⟨1, ?_⟩
    rw [stage_sentiment_of_error s h]; simp [record_call]
  | ok v =>
    obtain ⟨n, hn⟩ := stage_questions_invocations env plain { s with sentiment := v }
      { record_call w ArtifactOp.sentiment b with sentiment_cache := c }
    refine ⟨n + 1, ?_⟩
    rw [stage_sentiment_of_ok s h, hn]
    simp [record_call, List.take_succ_cons]

theorem stage_insights_invocations (env : Env) (plain : String) (s : SessionState)
    (w : World) :
    ∃ n, (stage_insights env plain s w).2.invocations =
      w.invocations ++
        ([ArtifactOp.insights, ArtifactOp.sentiment, ArtifactOp.questions,
          ArtifactOp.diarize].take n) := by
  rcases h : memoCall env.insights_model w.insights_cache plain with ⟨res, c, b⟩
  cases res with
  | error e =>
    refine ⟨1, ?_⟩
    rw [stage_insights_of_error s h]; simp [record_call]
  | ok v =>
    obtain ⟨n, hn⟩ := stage_sentiment_invocations env plain { s with insights := v }
      { record_call w ArtifactOp.insights b with insights_cache := c }
    refine ⟨n + 1, ?_⟩
    rw [stage_insights_of_ok s h, hn]
    simp [record_call, List.take_succ_cons]

theorem stage_summary_invocations (env : Env) (plain : String) (s : SessionState)
    (w : World) :
    ∃ n, (stage_summary env plain s w).2.invocations =
      w.invocations ++ (canonical_order.take n) := by
  rcases h : memoCall env.summary_model w.summary_cache plain with ⟨res, c, b⟩
  cases res with
  | error e =>
    refine ⟨1, ?_⟩
    rw [stage_summary_of_error s h]; simp [record_call, canonical_order]
  | ok v =>
    obtain ⟨n, hn⟩ := stage_insights_invocations env plain { s with summary := v }
      { record_call w ArtifactOp.summary b with summary_cache := c }
    refine ⟨n + 1, ?_⟩
    rw [stage_summary_of_ok s h, hn]
    simp [record_call, canonical_order, List.take_succ_cons]

/-! ### Completion forces the full invocation sequence -/

theorem stage_questions_complete (env : Env) (plain : String) (s : SessionState)
    (w : World) (h0 : s.analysis_complete = false)
    (hc : (stage_questions env plain s w).1.analysis_complete = true) :
    (stage_questions env plain s w).2.invocations =
      w.invocations ++ [ArtifactOp.questions, ArtifactOp.diarize] := by
  rcases h : memoCall env.questions_model w.questions_cache plain with ⟨res, c, b⟩
  cases res with
  | error e =>
    rw [stage_questions_of_error s h] at hc
    rw [h0] at hc
    exact absurd hc (by simp)
  | ok v =>
    rw [stage_questions_of_ok s h, stage_diarize_invocations]
    simp [record_call]

theorem stage_sentiment_complete (env : Env) (plain : String) (s : SessionState)
    (w : World) (h0 : s.analysis_complete = false)
    (hc : (stage_sentiment env plain s w).1.analysis_complete = true) :
    (stage_sentiment env plain s w).2.invocations =
      w.invocations ++
        [ArtifactOp.sentiment, ArtifactOp.questions, ArtifactOp.diarize] := by
  rcases h : memoCall env.sentiment_model w.sentiment_cache plain with ⟨res, c, b⟩
  cases res with
  | error e =>
    rw [stage_sentiment_of_error s h] at hc
    rw [h0] at hc
    exact absurd hc (by simp)
  | ok v =>
    rw [stage_sentiment_of_ok s h] at hc ⊢
    rw [stage_questions_complete env plain _ _ (by simpa using h0) hc]
    simp [record_call]

theorem stage_insights_complete (env : Env) (plain : String) (s : SessionState)
    (w : World) (h0 : s.analysis_complete = false)
    (hc : (stage_insights env plain s w).1.analysis_complete = true) :
    (stage_insights env plain s w).2.invocations =
      w.invocations ++
        [ArtifactOp.insights, ArtifactOp.sentiment, ArtifactOp.questions,
         ArtifactOp.diarize] := by
  rcases h : memoCall env.insights_model w.insights_cache plain with ⟨res, c, b⟩
  cases res with
  | error e =>
    rw [stage_insights_of_error s h] at hc
    rw [h0] at hc
    exact absurd hc (by simp)
  | ok v =>
    rw [stage_insights_of_ok s h] at hc ⊢
    rw [stage_sentiment_complete env plain _ _ (by simpa using h0) hc]
    simp [record_call]

theorem stage_summary_complete (env : Env) (plain : String) (s : SessionState)
    (w : World) (h0 : s.analysis_complete = false)
    (hc : (stage_summary env plain s w).1.analysis_complete = true) :
    (stage_summary env plain s w).2.invocations =
      w.invocations ++ canonical_order := by
  rcases h : memoCall env.summary_model w.summary_cache plain with ⟨res, c, b⟩
  cases res with
  | error e =>
    rw [stage_summary_of_error s h] at hc
    rw [h0] at hc
    exact absurd hc (by simp)
  | ok v =>
    rw [stage_summary_of_ok s h] at hc ⊢
    rw [stage_insights_complete env plain _ _ (by simpa using h0) hc]
    simp [record_call, canonical_order]

/-! ### Run-level reduction lemmas -/

theorem start_analysis_eq (env : Env) (file : UploadedFile) (selected_language : String)
    (s : SessionState) (w : World) :
    start_analysis env file selected_language s w =
      ((run_analysis_body env file selected_language (reset_for_analysis s) w).1,
       cleanup_temp (run_analysis_body env file selected_language (reset_for_analysis s) w).2) :=
  rfl

theorem body_no_language {env : Env} {file : UploadedFile} {selected_language : String}
    (s : SessionState) (w : World)
    (hl : lookupKey SUPPORTED_LANGUAGES selected_language = none) :
    run_analysis_body env file selected_language s w =
      (s, { w with fs := some file.content }) := by
  simp [run_analysis_body, hl]

theorem body_transcribe_error {env : Env} {file : UploadedFile}
    {selected_language : String} {lc : Option String} {e : AppError}
    {c : List ((String × Option String × String) × TranscriptionResult)} {b : Bool}
    (s : SessionState) (w : World)
    (hl : lookupKey SUPPORTED_LANGUAGES selected_language = some lc)
    (ht : transcribe_audio env w.transcribe_cache (some file.content)
        TEMP_AUDIO_FILENAME lc (model_to_use selected_language) = (Except.error e, c, b)) :
    run_analysis_body env file selected_language s w =
      (s, { w with fs := some file.content, transcribe_cache := c,
                   whisper_runs := w.whisper_runs + (if b then 1 else 0) }) := by
  simp [run_analysis_body, hl, ht]

theorem body_no_text {env : Env} {file : UploadedFile}
    {selected_language : String} {lc : Option String} {r : TranscriptionResult}
    {c : List ((String × Option String × String) × TranscriptionResult)} {b : Bool}
    (s : SessionState) (w : World)
    (hl : lookupKey SUPPORTED_LANGUAGES selected_language = some lc)
    (ht : transcribe_audio env w.transcribe_cache (some file.content)
        TEMP_AUDIO_FILENAME lc (model_to_use selected_language) = (Except.ok r, c, b))
    (hr : r.text = none) :
    run_analysis_body env file selected_language s w =
      (s, { w with fs := some file.content, transcribe_cache := c,
                   whisper_runs := w.whisper_runs + (if b then 1 else 0) }) := by
  simp [run_analysis_body, hl, ht, hr]

theorem body_with_text {env : Env} {file : UploadedFile}
    {selected_language : String} {lc : Option String} {r : TranscriptionResult}
    {plain : String}
    {c : List ((String × Option String × String) × TranscriptionResult)} {b : Bool}
    (s : SessionState) (w : World)
    (hl : lookupKey SUPPORTED_LANGUAGES selected_language = some lc)
    (ht : transcribe_audio env w.transcribe_cache (some file.content)
        TEMP_AUDIO_FILENAME lc (model_to_use selected_language) = (Except.ok r, c, b))
    (hr : r.text = some plain) :
    run_analysis_body env file selected_language s w =
      stage_summary env plain { s with transcript_result := some r }
        { w with fs := some file.content, transcribe_cache := c,
                 whisper_runs := w.whisper_runs + (if b then 1 else 0) } := by
  simp [run_analysis_body, hl, ht, hr]

/-! ### Folding lemmas for the interactive transcript -/

theorem words_foldl_eq (ws : List Word) (acc : String) :
    ws.foldl (fun a w => a ++ word_span w) acc = acc ++ spansConcat ws := by
  induction ws generalizing acc with
  | nil => simp [spansConcat]
  | cons w rest ih => simp [spansConcat, ih, String.append_assoc]

theorem spansConcat_append (xs ys : List Word) :
    spansConcat (xs ++ ys) = spansConcat xs ++ spansConcat ys := by
  induction xs with
  | nil => simp [spansConcat]
  | cons x rest ih => simp [spansConcat, ih, String.append_assoc]

theorem segments_foldl_eq (segs : List Segment) (acc : String) :
    segs.foldl (fun a seg => seg.words.foldl (fun a2 w => a2 ++ word_span w) a) acc =
      acc ++ spansConcat (flat_words segs) := by
  induction segs generalizing acc with
  | nil => simp [flat_words, spansConcat]
  | cons seg rest ih =>
    rw [List.foldl_cons, words_foldl_eq, ih,
      show flat_words (seg :: rest) = seg.words ++ flat_words rest from rfl,
      spansConcat_append, String.append_assoc]

/-! ### Claim theorems -/

/-- C6: on every exit path of an analysis run — completion, KeyError on the
language table, transcription failure, any derived-artifact failure — the
temporary audio file `temp_audio_file.mp3` does not exist on disk after the
run ends (the `finally:` block removes it unconditionally). -/
theorem C6_temp_file_absent_after_run (env : Env) (file : UploadedFile)
    (selected_language : String) (s : SessionState) (w : World) :
    ((start_analysis env file selected_language s w).2).fs = none := by
  rw [start_analysis_eq]
  exact cleanup_temp_fs _

/-- C7: upload identity is the uploaded file's name only — two uploads with
the same filename are handled identically regardless of their bytes, and
when the previous upload has the same name the handler leaves the session
(including `analysis_complete` and `last_uploaded_file`) unchanged. -/
theorem C7_upload_identity_is_name_only (s : SessionState) (f g : UploadedFile) :
    (f.name = g.name → handle_upload f s = handle_upload g s) ∧
    (s.last_uploaded_file = some f.name → handle_upload f s = s) := by
  constructor
  · intro h
    simp [handle_upload, h]
  · intro h
    simp [handle_upload, h]

/-- Witness for C7 at concrete inputs: same filename, different bytes. -/
theorem C7_upload_identity_witness :
    handle_upload (UploadedFile.mk "a.mp3" "bytes1") emptySession =
      handle_upload (UploadedFile.mk "a.mp3" "bytes2") emptySession ∧
    handle_upload (UploadedFile.mk "a.mp3" "bytes1") sPrev = sPrev :=
  ⟨(C7_upload_identity_is_name_only emptySession
      (UploadedFile.mk "a.mp3" "bytes1") (UploadedFile.mk "a.mp3" "bytes2")).1 rfl,
   (C7_upload_identity_is_name_only sPrev
      (UploadedFile.mk "a.mp3" "bytes1") (UploadedFile.mk "other" "z")).2 rfl⟩

/-- C1: detecting an upload whose name differs from `last_uploaded_file`
sets `analysis_complete := false` and records the new identity; and before
any new analysis starts, the Start Analysis handler (which by definition
runs its body on `reset_for_analysis` of the session) has cleared the five
derived artifacts, the transcript and the chat message list to their empty
values. -/
theorem C1_new_upload_resets_before_analysis (s : SessionState) (f : UploadedFile)
    (env : Env) (selected_language : String) (w : World)
    (h : s.last_uploaded_file ≠ some f.name) :
    (handle_upload f s).analysis_complete = false ∧
    (handle_upload f s).last_uploaded_file = some f.name ∧
    (reset_for_analysis (handle_upload f s)).analysis_complete = false ∧
    (reset_for_analysis (handle_upload f s)).transcript_result = none ∧
    (reset_for_analysis (handle_upload f s)).summary = "" ∧
    (reset_for_analysis (handle_upload f s)).insights = "" ∧
    (reset_for_analysis (handle_upload f s)).sentiment = "" ∧
    (reset_for_analysis (handle_upload f s)).questions = "" ∧
    (reset_for_analysis (handle_upload f s)).diarized_transcript = "" ∧
    (reset_for_analysis (handle_upload f s)).messages = [] ∧
    start_analysis env f selected_language (handle_upload f s) w =
      ((run_analysis_body env f selected_language
          (reset_for_analysis (handle_upload f s)) w).1,
       cleanup_temp (run_analysis_body env f selected_language
          (reset_for_analysis (handle_upload f s)) w).2) := by
  refine ⟨?_, ?_, by simp [reset_for_analysis], by simp [reset_for_analysis],
    by simp [reset_for_analysis], by simp [reset_for_analysis],
    by simp [reset_for_analysis], by simp [reset_for_analysis],
    by simp [reset_for_analysis], by simp [reset_for_analysis], rfl⟩
  · simp [handle_upload, h]
  · simp [handle_upload, h]

/-- Witness for C1: uploading `b.mp3` over a session whose previous upload
was `a.mp3` with a fully populated analysis. -/
theorem C1_new_upload_witness :
    (handle_upload (UploadedFile.mk "b.mp3" "newbytes") sPrev).analysis_complete = false ∧
    (reset_for_analysis (handle_upload (UploadedFile.mk "b.mp3" "newbytes") sPrev)).summary = "" ∧
    (reset_for_analysis (handle_upload (UploadedFile.mk "b.mp3" "newbytes") sPrev)).messages = [] :=
  ⟨(C1_new_upload_resets_before_analysis sPrev (UploadedFile.mk "b.mp3" "newbytes")
      okEnv "English" emptyWorld (by decide)).1,
   (C1_new_upload_resets_before_analysis sPrev (UploadedFile.mk "b.mp3" "newbytes")
      okEnv "English" emptyWorld (by decide)).2.2.2.2.1,
   (C1_new_upload_resets_before_analysis sPrev (UploadedFile.mk "b.mp3" "newbytes")
      okEnv "English" emptyWorld (by decide)).2.2.2.2.2.2.2.2.2.1⟩

/-- C8: re-invoking a memoized derived-artifact computation with the exact
same transcript returns the stored result without a second call to the
underlying chat-completion client (third component `false`) and without
changing the cache. -/
theorem C8_cached_artifact_no_second_client_call
    (impl : String → Except AppError String) (cache : List (String × String))
    (t v : String) (c1 : List (String × String)) (b : Bool)
    (h : memoCall impl cache t = (Except.ok v, c1, b)) :
    memoCall impl c1 t = (Except.ok v, c1, false) := by
  unfold memoCall at h ⊢
  cases hl : lookupKey cache t with
  | some v0 =>
    rw [hl] at h
    simp only [Prod.mk.injEq, Except.ok.injEq] at h
    obtain ⟨hv, hc, hb⟩ := h
    subst hv
    subst hc
    rw [hl]
  | none =>
    rw [hl] at h
    cases hi : impl t with
    | ok v0 =>
      rw [hi] at h
      simp only [Prod.mk.injEq, Except.ok.injEq] at h
      obtain ⟨hv, hc, hb⟩ := h
      subst hv
      subst hc
      simp [lookupKey]
    | error e =>
      rw [hi] at h
      simp at h

/-- Witness for C8: a first call from the empty cache populated the entry;
the second call returns it with no client call. -/
theorem C8_cached_artifact_witness :
    memoCall okEnv.summary_model [("tr", "S:tr")] "tr" =
      (Except.ok "S:tr", [("tr", "S:tr")], false) :=
  C8_cached_artifact_no_second_client_call okEnv.summary_model [] "tr" "S:tr"
    [("tr", "S:tr")] true rfl

/-- C10: `create_interactive_transcript` emits the spans of the words in
segment-then-word order, one clickable span per word, each span carrying
its own word's start time; in particular the one-segment hello/world input
yields exactly the two tokens, in order, with their own start times. -/
theorem C10_interactive_transcript_tokens :
    (∀ r : TranscriptionResult,
      create_interactive_transcript r =
        html_head ++ spansConcat (flat_words r.segments) ++ "</div>") ∧
    (∀ w : Word, word_span w = span_head ++ toString w.start ++ span_mid ++
      w.word ++ " </span>") ∧
    flat_words [Segment.mk [Word.mk "hello" 0, Word.mk "world" ((1 : Rat)/2)]] =
      [Word.mk "hello" 0, Word.mk "world" ((1 : Rat)/2)] ∧
    create_interactive_transcript
        (TranscriptionResult.mk (some "hello world")
          [Segment.mk [Word.mk "hello" 0, Word.mk "world" ((1 : Rat)/2)]]) =
      html_head ++ (word_span (Word.mk "hello" 0) ++
        (word_span (Word.mk "world" ((1 : Rat)/2)) ++ "")) ++ "</div>" := by
  have hgen : ∀ r : TranscriptionResult,
      create_interactive_transcript r =
        html_head ++ spansConcat (flat_words r.segments) ++ "</div>" := by
    intro r
    simp only [create_interactive_transcript]
    rw [segments_foldl_eq]
  refine ⟨hgen, fun w => rfl, by simp [flat_words], ?_⟩
  rw [hgen]
  rfl

/-- C5 counterexample: with a failing Q&A call the chat handler leaves the
message list ending in an unpaired trailing user message, contradicting the
claim that no operation — including a failing Q&A call — can do so. -/
theorem C5_counterexample_unpaired_user_message :
    (handle_chat_input { okEnv with qa_model := fun _ _ => Except.error (AppError.api "503") }
        "q1" chatSession).messages = [ChatMessage.mk ChatRole.user "q1"] ∧
    (handle_chat_input { okEnv with qa_model := fun _ _ => Except.error (AppError.api "503") }
        "q1" chatSession).messages.getLast? = some (ChatMessage.mk ChatRole.user "q1") := by
  constructor
  · rfl
  · rfl

/-- C5 (amended): the chat message list grows by an appended user/assistant
pair when the Q&A call succeeds; when the Q&A call fails (or the transcript
is unavailable) only the user message is appended, leaving an unpaired
trailing user message; the clear action atomically resets it to empty.  In
all cases the previous messages are preserved as a prefix — the list is
never partially truncated. -/
theorem C5_chat_append_or_clear (env : Env) (prompt : String) (s : SessionState) :
    (clear_chat_history s).messages = [] ∧
    (∀ r t resp, s.transcript_result = some r → r.text = some t →
      env.qa_model t prompt = Except.ok resp →
      (handle_chat_input env prompt s).messages =
        s.messages ++ [ChatMessage.mk ChatRole.user prompt,
                       ChatMessage.mk ChatRole.assistant resp]) ∧
    (∀ r t e, s.transcript_result = some r → r.text = some t →
      env.qa_model t prompt = Except.error e →
      (handle_chat_input env prompt s).messages =
        s.messages ++ [ChatMessage.mk ChatRole.user prompt]) ∧
    (∃ ext, (handle_chat_input env prompt s).messages = s.messages ++ ext) := by
  refine ⟨by simp [clear_chat_history], ?_, ?_, ?_⟩
  · intro r t resp h1 h2 h3
    obtain ⟨rtext, rsegs⟩ := r
    simp only at h2
    subst h2
    unfold handle_chat_input
    rw [h1]
    dsimp only
    rw [h3]
    simp
  · intro r t e h1 h2 h3
    obtain ⟨rtext, rsegs⟩ := r
    simp only at h2
    subst h2
    unfold handle_chat_input
    rw [h1]
    dsimp only
    rw [h3]
  · obtain ⟨lf, ac, tr, su, ins, se, qs, dz, ms⟩ := s
    unfold handle_chat_input
    cases tr with
    | none => exact ⟨[ChatMessage.mk ChatRole.user prompt], by simp⟩
    | some r =>
      obtain ⟨rtext, rsegs⟩ := r
      cases rtext with
      | none => exact ⟨[ChatMessage.mk ChatRole.user prompt], by simp⟩
      | some t =>
        cases h3 : env.qa_model t prompt with
        | error e => exact ⟨[ChatMessage.mk ChatRole.user prompt], by simp [h3]⟩
        | ok resp =>
          exact ⟨[ChatMessage.mk ChatRole.user prompt,
                  ChatMessage.mk ChatRole.assistant resp], by simp [h3]⟩

/-- Witness for C5 (amended): a successful chat turn appends exactly the
user/assistant pair, and clearing empties the list. -/
theorem C5_chat_append_witness :
    (handle_chat_input okEnv "q1" chatSession).messages =
      chatSession.messages ++ [ChatMessage.mk ChatRole.user "q1",
        ChatMessage.mk ChatRole.assistant ("A:" ++ "t" ++ ":" ++ "q1")] ∧
    (clear_chat_history chatSession).messages = [] :=
  ⟨(C5_chat_append_or_clear okEnv "q1" chatSession).2.1
      (TranscriptionResult.mk (some "t") []) "t" ("A:" ++ "t" ++ ":" ++ "q1")
      rfl rfl rfl,
   (C5_chat_append_or_clear okEnv "q1" chatSession).1⟩

/-- C9: in every analysis run the logged derived-artifact invocations are a
prefix of the canonical sequence summary, insights, sentiment, questions,
diarization (so no call ever occurs out of this order), and a run that ends
with `analysis_complete = true` has invoked all five, in exactly that
order. -/
theorem C9_artifact_calls_in_canonical_order (env : Env) (file : UploadedFile)
    (selected_language : String) (s : SessionState) (w : World) :
    (∃ n, ((start_analysis env file selected_language s w).2).invocations =
        w.invocations ++ canonical_order.take n) ∧
    (((start_analysis env file selected_language s w).1).analysis_complete = true →
      ((start_analysis env file selected_language s w).2).invocations =
        w.invocations ++ canonical_order) := by
  rw [start_analysis_eq]
  cases hl : lookupKey SUPPORTED_LANGUAGES selected_language with
  | none =>
    rw [body_no_language (reset_for_analysis s) w hl]
    refine ⟨⟨0, by simp⟩, fun hc => ?_⟩
    simp [reset_for_analysis] at hc
  | some lc =>
    rcases ht : transcribe_audio env w.transcribe_cache (some file.content)
        TEMP_AUDIO_FILENAME lc (model_to_use selected_language) with ⟨res, c, b⟩
    cases res with
    | error e =>
      rw [body_transcribe_error (reset_for_analysis s) w hl ht]
      refine ⟨⟨0, by simp⟩, fun hc => ?_⟩
      simp [reset_for_analysis] at hc
    | ok r =>
      cases hr : r.text with
      | none =>
        rw [body_no_text (reset_for_analysis s) w hl ht hr]
        refine ⟨⟨0, by simp⟩, fun hc => ?_⟩
        simp [reset_for_analysis] at hc
      | some plain =>
        rw [body_with_text (reset_for_analysis s) w hl ht hr]
        constructor
        · obtain ⟨n, hn⟩ := stage_summary_invocations env plain
            { reset_for_analysis s with transcript_result := some r }
            { w with fs := some file.content, transcribe_cache := c,
                     whisper_runs := w.whisper_runs + (if b then 1 else 0) }
          refine ⟨n, ?_⟩
          rw [cleanup_temp_invocations, hn]
        · intro hc
          rw [cleanup_temp_invocations]
          have h0 : ({ reset_for_analysis s with
              transcript_result := some r } : SessionState).analysis_complete = false := by
            simp [reset_for_analysis]
          rw [stage_summary_complete env plain _ _ h0 hc]

/-- Witness for C9: a fully successful concrete run logs exactly the five
invocations in canonical order. -/
theorem C9_artifact_order_witness :
    ((start_analysis okEnv (UploadedFile.mk "a.mp3" "bytes") "English" emptySession
        emptyWorld).2).invocations = emptyWorld.invocations ++ canonical_order :=
  (C9_artifact_calls_in_canonical_order okEnv (UploadedFile.mk "a.mp3" "bytes")
      "English" emptySession emptyWorld).2 (by decide)

/-- An environment whose transcription result carries no `"text"` key. -/
def noTextEnv : Env :=
  { okEnv with whisper_transcribe := fun _ _ _ =>
      Except.ok (TranscriptionResult.mk none []) }

/-- An environment whose transcription result has `"text"` present but
equal to the empty string. -/
def emptyTextEnv : Env :=
  { okEnv with whisper_transcribe := fun _ _ _ =>
      Except.ok (TranscriptionResult.mk (some "") []) }

/-- C2 counterexample: a transcription result whose text field is present
but the EMPTY STRING passes the handler's
`if transcription_result and "text" in transcription_result` check, so the
run invokes all five derived-artifact computations and sets
`analysis_complete = true` — contradicting the claim that an empty text
field leaves it false and invokes none. -/
theorem C2_counterexample_empty_text_proceeds :
    (start_analysis emptyTextEnv (UploadedFile.mk "a.mp3" "bytes") "English"
        emptySession emptyWorld).1.analysis_complete = true ∧
    ((start_analysis emptyTextEnv (UploadedFile.mk "a.mp3" "bytes") "English"
        emptySession emptyWorld).2).invocations = canonical_order := by
  constructor
  · decide
  · decide

/-- C2 (amended): a transcription result with a MISSING text field leaves
`analysis_complete` false and invokes none of the five derived-artifact
computations; and `analysis_complete` becomes true only when transcription
returned a result whose text field is present (the code does not require it
non-empty) and all five derived-artifact calls were invoked and succeeded,
in canonical order. -/
theorem C2_no_text_skips_artifacts (env : Env) (file : UploadedFile)
    (selected_language : String) (s : SessionState) (w : World) :
    (∀ lc c b r, lookupKey SUPPORTED_LANGUAGES selected_language = some lc →
      transcribe_audio env w.transcribe_cache (some file.content) TEMP_AUDIO_FILENAME
          lc (model_to_use selected_language) = (Except.ok r, c, b) →
      r.text = none →
      (start_analysis env file selected_language s w).1.analysis_complete = false ∧
      ((start_analysis env file selected_language s w).2).invocations = w.invocations) ∧
    ((start_analysis env file selected_language s w).1.analysis_complete = true →
      (∃ r, (start_analysis env file selected_language s w).1.transcript_result = some r ∧
        r.text.isSome = true) ∧
      ((start_analysis env file selected_language s w).2).invocations =
        w.invocations ++ canonical_order) := by
  constructor
  · intro lc c b r hl ht hr
    rw [start_analysis_eq, body_no_text (reset_for_analysis s) w hl ht hr]
    exact ⟨by simp [reset_for_analysis], by simp⟩
  · rw [start_analysis_eq]
    cases hl : lookupKey SUPPORTED_LANGUAGES selected_language with
    | none =>
      rw [body_no_language (reset_for_analysis s) w hl]
      intro hc
      simp [reset_for_analysis] at hc
    | some lc =>
      rcases ht : transcribe_audio env w.transcribe_cache (some file.content)
          TEMP_AUDIO_FILENAME lc (model_to_use selected_language) with ⟨res, c, b⟩
      cases res with
      | error e =>
        rw [body_transcribe_error (reset_for_analysis s) w hl ht]
        intro hc
        simp [reset_for_analysis] at hc
      | ok r =>
        cases hr : r.text with
        | none =>
          rw [body_no_text (reset_for_analysis s) w hl ht hr]
          intro hc
          simp [reset_for_analysis] at hc
        | some plain =>
          rw [body_with_text (reset_for_analysis s) w hl ht hr]
          intro hc
          have h0 : ({ reset_for_analysis s with
              transcript_result := some r } : SessionState).analysis_complete = false := by
            simp [reset_for_analysis]
          refine ⟨⟨r, ?_, ?_⟩, ?_⟩
          · rw [stage_summary_transcript]
          · rw [hr]
            rfl
          · rw [cleanup_temp_invocations, stage_summary_complete env plain _ _ h0 hc]

/-- Witness for C2 (amended): a concrete run whose transcription has no
text field skips all five derived-artifact computations. -/
theorem C2_no_text_witness :
    (start_analysis noTextEnv (UploadedFile.mk "a.mp3" "bytes") "English"
        emptySession emptyWorld).1.analysis_complete = false ∧
    ((start_analysis noTextEnv (UploadedFile.mk "a.mp3" "bytes") "English"
        emptySession emptyWorld).2).invocations = emptyWorld.invocations :=
  (C2_no_text_skips_artifacts noTextEnv (UploadedFile.mk "a.mp3" "bytes") "English"
      emptySession emptyWorld).1 (some "en")
    [((TEMP_AUDIO_FILENAME, some "en", model_to_use "English"),
        TranscriptionResult.mk none [])] true
    (TranscriptionResult.mk none []) rfl rfl rfl

/-- C3: every analysis run passes the constant path `temp_audio_file.mp3`
to `transcribe_audio`, so the memo key is `(path, language, model)` with a
constant path: after a first run transcribes audio `f1`, a second run over
DIFFERENT audio bytes `f2` (same language selection, hence same model)
performs no new whisper transcription and stores the first run's transcript. -/
theorem C3_transcription_cache_ignores_audio_bytes (env : Env) (f1 f2 : UploadedFile)
    (selected_language : String) (lc : Option String) (r : TranscriptionResult)
    (s1 s2 : SessionState) (w : World)
    (hcache : w.transcribe_cache = [])
    (hl : lookupKey SUPPORTED_LANGUAGES selected_language = some lc)
    (hw : env.whisper_transcribe f1.content lc (model_to_use selected_language) =
      Except.ok r) :
    TEMP_AUDIO_FILENAME = "temp_audio_file.mp3" ∧
    ((start_analysis env f1 selected_language s1 w).2).whisper_runs = w.whisper_runs + 1 ∧
    ((start_analysis env f1 selected_language s1 w).2).transcribe_cache =
      [((TEMP_AUDIO_FILENAME, lc, model_to_use selected_language), r)] ∧
    ((start_analysis env f2 selected_language s2
        ((start_analysis env f1 selected_language s1 w).2)).2).whisper_runs =
      ((start_analysis env f1 selected_language s1 w).2).whisper_runs ∧
    (start_analysis env f2 selected_language s2
        ((start_analysis env f1 selected_language s1 w).2)).1.transcript_result =
      (start_analysis env f1 selected_language s1 w).1.transcript_result := by
  have ht1 : transcribe_audio env w.transcribe_cache (some f1.content)
      TEMP_AUDIO_FILENAME lc (model_to_use selected_language) =
      (Except.ok r,
       [((TEMP_AUDIO_FILENAME, lc, model_to_use selected_language), r)], true) := by
    rw [hcache]
    simp [transcribe_audio, lookupKey, hw]
  cases hr : r.text with
  | none =>
    have e1 : run_analysis_body env f1 selected_language (reset_for_analysis s1) w =
        (reset_for_analysis s1,
         { w with fs := some f1.content,
                  transcribe_cache :=
                    [((TEMP_AUDIO_FILENAME, lc, model_to_use selected_language), r)],
                  whisper_runs := w.whisper_runs + 1 }) :=
      body_no_text (reset_for_analysis s1) w hl ht1 hr
    have hc1 : ((start_analysis env f1 selected_language s1 w).2).transcribe_cache =
        [((TEMP_AUDIO_FILENAME, lc, model_to_use selected_language), r)] := by
      rw [start_analysis_eq, e1]
      simp
    have hw1 : ((start_analysis env f1 selected_language s1 w).2).whisper_runs =
        w.whisper_runs + 1 := by
      rw [start_analysis_eq, e1]
      simp
    have htr1 : (start_analysis env f1 selected_language s1 w).1.transcript_result =
        none := by
      rw [start_analysis_eq, e1]
      simp [reset_for_analysis]
    have ht2 : transcribe_audio env
        ((start_analysis env f1 selected_language s1 w).2).transcribe_cache
        (some f2.content) TEMP_AUDIO_FILENAME lc (model_to_use selected_language) =
        (Except.ok r,
         [((TEMP_AUDIO_FILENAME, lc, model_to_use selected_language), r)], false) := by
      rw [hc1]
      simp [transcribe_audio, lookupKey]
    have e2 : run_analysis_body env f2 selected_language (reset_for_analysis s2)
        ((start_analysis env f1 selected_language s1 w).2) =
        (reset_for_analysis s2,
         { (start_analysis env f1 selected_language s1 w).2 with
             fs := some f2.content,
             transcribe_cache :=
               [((TEMP_AUDIO_FILENAME, lc, model_to_use selected_language), r)],
             whisper_runs :=
               ((start_analysis env f1 selected_language s1 w).2).whisper_runs + 0 }) :=
      body_no_text (reset_for_analysis s2)
        ((start_analysis env f1 selected_language s1 w).2) hl ht2 hr
    have hw2 : ((start_analysis env f2 selected_language s2
        ((start_analysis env f1 selected_language s1 w).2)).2).whisper_runs =
        ((start_analysis env f1 selected_language s1 w).2).whisper_runs := by
      rw [start_analysis_eq env f2 selected_language s2
        ((start_analysis env f1 selected_language s1 w).2), e2]
      simp
    have htr2 : (start_analysis env f2 selected_language s2
        ((start_analysis env f1 selected_language s1 w).2)).1.transcript_result =
        none := by
      rw [start_analysis_eq env f2 selected_language s2
        ((start_analysis env f1 selected_language s1 w).2), e2]
      simp [reset_for_analysis]
    exact ⟨rfl, hw1, hc1, hw2, htr2.trans htr1.symm⟩
  | some plain =>
    have e1 : run_analysis_body env f1 selected_language (reset_for_analysis s1) w =
        stage_summary env plain
          { reset_for_analysis s1 with transcript_result := some r }
          { w with fs := some f1.content,
                   transcribe_cache :=
                     [((TEMP_AUDIO_FILENAME, lc, model_to_use selected_language), r)],
                   whisper_runs := w.whisper_runs + 1 } :=
      body_with_text (reset_for_analysis s1) w hl ht1 hr
    obtain ⟨hfs1, hcc1, hwr1⟩ := stage_summary_preserves env plain
      { reset_for_analysis s1 with transcript_result := some r }
      { w with fs := some f1.content,
               transcribe_cache :=
                 [((TEMP_AUDIO_FILENAME, lc, model_to_use selected_language), r)],
               whisper_runs := w.whisper_runs + 1 }
    have hc1 : ((start_analysis env f1 selected_language s1 w).2).transcribe_cache =
        [((TEMP_AUDIO_FILENAME, lc, model_to_use selected_language), r)] := by
      rw [start_analysis_eq, e1]
      dsimp only
      rw [cleanup_temp_transcribe_cache, hcc1]
    have hw1 : ((start_analysis env f1 selected_language s1 w).2).whisper_runs =
        w.whisper_runs + 1 := by
      rw [start_analysis_eq, e1]
      dsimp only
      rw [cleanup_temp_whisper_runs, hwr1]
    have htr1 : (start_analysis env f1 selected_language s1 w).1.transcript_result =
        some r := by
      rw [start_analysis_eq, e1]
      dsimp only
      rw [stage_summary_transcript]
    have ht2 : transcribe_audio env
        ((start_analysis env f1 selected_language s1 w).2).transcribe_cache
        (some f2.content) TEMP_AUDIO_FILENAME lc (model_to_use selected_language) =
        (Except.ok r,
         [((TEMP_AUDIO_FILENAME, lc, model_to_use selected_language), r)], false) := by
      rw [hc1]
      simp [transcribe_audio, lookupKey]
    have e2 : run_analysis_body env f2 selected_language (reset_for_analysis s2)
        ((start_analysis env f1 selected_language s1 w).2) =
        stage_summary env plain
          { reset_for_analysis s2 with transcript_result := some r }
          { (start_analysis env f1 selected_language s1 w).2 with
              fs := some f2.content,
              transcribe_cache :=
                [((TEMP_AUDIO_FILENAME, lc, model_to_use selected_language), r)],
              whisper_runs :=
                ((start_analysis env f1 selected_language s1 w).2).whisper_runs + 0 } :=
      body_with_text (reset_for_analysis s2)
        ((start_analysis env f1 selected_language s1 w).2) hl ht2 hr
    obtain ⟨hfs2, hcc2, hwr2⟩ := stage_summary_preserves env plain
      { reset_for_analysis s2 with transcript_result := some r }
      { (start_analysis env f1 selected_language s1 w).2 with
          fs := some f2.content,
          transcribe_cache :=
            [((TEMP_AUDIO_FILENAME, lc, model_to_use selected_language), r)],
          whisper_runs :=
            ((start_analysis env f1 selected_language s1 w).2).whisper_runs + 0 }
    have hw2 : ((start_analysis env f2 selected_language s2
        ((start_analysis env f1 selected_language s1 w).2)).2).whisper_runs =
        ((start_analysis env f1 selected_language s1 w).2).whisper_runs := by
      rw [start_analysis_eq env f2 selected_language s2
        ((start_analysis env f1 selected_language s1 w).2), e2]
      dsimp only
      rw [cleanup_temp_whisper_runs, hwr2]
      simp
    have htr2 : (start_analysis env f2 selected_language s2
        ((start_analysis env f1 selected_language s1 w).2)).1.transcript_result =
        some r := by
      rw [start_analysis_eq env f2 selected_language s2
        ((start_analysis env f1 selected_language s1 w).2), e2]
      dsimp only
      rw [stage_summary_transcript]
    exact ⟨rfl, hw1, hc1, hw2, htr2.trans htr1.symm⟩

/-- Witness for C3: two concrete uploads with different bytes and the same
language selection; the second run performs no whisper transcription and
ends with the first run's transcript. -/
theorem C3_transcription_cache_witness :
    (start_analysis okEnv (UploadedFile.mk "b.mp3" "bytesB") "English" emptySession
        ((start_analysis okEnv (UploadedFile.mk "a.mp3" "bytesA") "English"
          emptySession emptyWorld).2)).1.transcript_result =
      (start_analysis okEnv (UploadedFile.mk "a.mp3" "bytesA") "English"
        emptySession emptyWorld).1.transcript_result ∧
    ((start_analysis okEnv (UploadedFile.mk "a.mp3" "bytesA") "English" emptySession
        emptyWorld).2).whisper_runs = emptyWorld.whisper_runs + 1 :=
  ⟨(C3_transcription_cache_ignores_audio_bytes okEnv (UploadedFile.mk "a.mp3" "bytesA")
      (UploadedFile.mk "b.mp3" "bytesB") "English" (some "en")
      (TranscriptionResult.mk (some ("T:" ++ "bytesA")) []) emptySession emptySession
      emptyWorld rfl rfl rfl).2.2.2.2,
   (C3_transcription_cache_ignores_audio_bytes okEnv (UploadedFile.mk "a.mp3" "bytesA")
      (UploadedFile.mk "b.mp3" "bytesB") "English" (some "en")
      (TranscriptionResult.mk (some ("T:" ++ "bytesA")) []) emptySession emptySession
      emptyWorld rfl rfl rfl).2.1⟩

/-- An environment whose sentiment prompt (the third derived-artifact step)
fails while everything else succeeds. -/
def sentimentFailEnv : Env :=
  { okEnv with sentiment_model := fun _ => Except.error (AppError.api "quota") }

/-- C4 counterexample: when the third derived-artifact step fails, the
artifacts stored before the failure (summary, insights) are NOT discarded
from the session state — they remain populated while `analysis_complete`
is false, contradicting the claim that the session holds no partial
artifacts on the Failed outcome. -/
theorem C4_counterexample_partials_not_discarded :
    (start_analysis sentimentFailEnv (UploadedFile.mk "a.mp3" "bytes") "English"
        emptySession emptyWorld).1.analysis_complete = false ∧
    (start_analysis sentimentFailEnv (UploadedFile.mk "a.mp3" "bytes") "English"
        emptySession emptyWorld).1.summary = "S:T:bytes" ∧
    (start_analysis sentimentFailEnv (UploadedFile.mk "a.mp3" "bytes") "English"
        emptySession emptyWorld).1.insights = "I:T:bytes" ∧
    "S:T:bytes" ≠ "" := by
  refine ⟨by decide, by decide, by decide, by decide⟩

/-- C4 (amended): on any failure — transcription error, or an error in any
of the five derived-artifact calls — the run ends with `analysis_complete =
false`, the artifacts computed BEFORE the failing step remain stored in the
session state (they are not discarded), and the artifacts from the failing
step onward keep their reset empty values. -/
theorem C4_failure_keeps_earlier_artifacts (env : Env) (file : UploadedFile)
    (selected_language : String) (s : SessionState) (w : World)
    (lc : Option String)
    (hl : lookupKey SUPPORTED_LANGUAGES selected_language = some lc) :
    (∀ e c b, transcribe_audio env w.transcribe_cache (some file.content)
        TEMP_AUDIO_FILENAME lc (model_to_use selected_language) = (Except.error e, c, b) →
      (start_analysis env file selected_language s w).1 = reset_for_analysis s ∧
      (start_analysis env file selected_language s w).1.analysis_complete = false) ∧
    (∀ r plain c b, transcribe_audio env w.transcribe_cache (some file.content)
        TEMP_AUDIO_FILENAME lc (model_to_use selected_language) = (Except.ok r, c, b) →
      r.text = some plain →
      ((∀ e1 c1 b1,
        memoCall env.summary_model w.summary_cache plain = (Except.error e1, c1, b1) →
        (start_analysis env file selected_language s w).1 =
          { reset_for_analysis s with transcript_result := some r } ∧
        (start_analysis env file selected_language s w).1.analysis_complete = false) ∧
      (∀ v1 c1 b1 e2 c2 b2,
        memoCall env.summary_model w.summary_cache plain = (Except.ok v1, c1, b1) →
        memoCall env.insights_model w.insights_cache plain = (Except.error e2, c2, b2) →
        (start_analysis env file selected_language s w).1 =
          { reset_for_analysis s with transcript_result := some r, summary := v1 } ∧
        (start_analysis env file selected_language s w).1.analysis_complete = false) ∧
      (∀ v1 c1 b1 v2 c2 b2 e3 c3 b3,
        memoCall env.summary_model w.summary_cache plain = (Except.ok v1, c1, b1) →
        memoCall env.insights_model w.insights_cache plain = (Except.ok v2, c2, b2) →
        memoCall env.sentiment_model w.sentiment_cache plain = (Except.error e3, c3, b3) →
        (start_analysis env file selected_language s w).1 =
          { reset_for_analysis s with transcript_result := some r, summary := v1,
                                      insights := v2 } ∧
        (start_analysis env file selected_language s w).1.analysis_complete = false) ∧
      (∀ v1 c1 b1 v2 c2 b2 v3 c3 b3 e4 c4 b4,
        memoCall env.summary_model w.summary_cache plain = (Except.ok v1, c1, b1) →
        memoCall env.insights_model w.insights_cache plain = (Except.ok v2, c2, b2) →
        memoCall env.sentiment_model w.sentiment_cache plain = (Except.ok v3, c3, b3) →
        memoCall env.questions_model w.questions_cache plain = (Except.error e4, c4, b4) →
        (start_analysis env file selected_language s w).1 =
          { reset_for_analysis s with transcript_result := some r, summary := v1,
                                      insights := v2, sentiment := v3 } ∧
        (start_analysis env file selected_language s w).1.analysis_complete = false) ∧
      (∀ v1 c1 b1 v2 c2 b2 v3 c3 b3 v4 c4 b4 e5 c5 b5,
        memoCall env.summary_model w.summary_cache plain = (Except.ok v1, c1, b1) →
        memoCall env.insights_model w.insights_cache plain = (Except.ok v2, c2, b2) →
        memoCall env.sentiment_model w.sentiment_cache plain = (Except.ok v3, c3, b3) →
        memoCall env.questions_model w.questions_cache plain = (Except.ok v4, c4, b4) →
        memoCall env.diarize_model w.diarize_cache plain = (Except.error e5, c5, b5) →
        (start_analysis env file selected_language s w).1 =
          { reset_for_analysis s with transcript_result := some r, summary := v1,
                                      insights := v2, sentiment := v3,
                                      questions := v4 } ∧
        (start_analysis env file selected_language s w).1.analysis_complete = false))) := by
  constructor
  · intro e c b ht
    rw [start_analysis_eq, body_transcribe_error (reset_for_analysis s) w hl ht]
    exact ⟨rfl, by simp [reset_for_analysis]⟩
  · intro r plain c b ht hr
    rw [start_analysis_eq, body_with_text (reset_for_analysis s) w hl ht hr]
    set W1 : World := { w with fs := some file.content, transcribe_cache := c, whisper_runs := w.whisper_runs + (if b then 1 else 0) } with hW1
    refine ⟨?_, ?_, ?_, ?_, ?_⟩
    · intro e1 c1 b1 h1
      have h1x : memoCall env.summary_model W1.summary_cache plain =
          (Except.error e1, c1, b1) := h1
      rw [stage_summary_of_error _ h1x]
      exact ⟨rfl, by simp [reset_for_analysis]⟩
    · intro v1 c1 b1 e2 c2 b2 h1 h2
      have h1x : memoCall env.summary_model W1.summary_cache plain =
          (Except.ok v1, c1, b1) := h1
      rw [stage_summary_of_ok _ h1x]
      set W2 : World := { record_call W1 ArtifactOp.summary b1 with summary_cache := c1 } with hW2
      have h2x : memoCall env.insights_model W2.insights_cache plain =
          (Except.error e2, c2, b2) := h2
      rw [stage_insights_of_error _ h2x]
      exact ⟨rfl, by simp [reset_for_analysis]⟩
    · intro v1 c1 b1 v2 c2 b2 e3 c3 b3 h1 h2 h3
      have h1x : memoCall env.summary_model W1.summary_cache plain =
          (Except.ok v1, c1, b1) := h1
      rw [stage_summary_of_ok _ h1x]
      set W2 : World := { record_call W1 ArtifactOp.summary b1 with summary_cache := c1 } with hW2
      have h2x : memoCall env.insights_model W2.insights_cache plain =
          (Except.ok v2, c2, b2) := h2
      rw [stage_insights_of_ok _ h2x]
      set W3 : World := { record_call W2 ArtifactOp.insights b2 with insights_cache := c2 } with hW3
      have h3x : memoCall env.sentiment_model W3.sentiment_cache plain =
          (Except.error e3, c3, b3) := h3
      rw [stage_sentiment_of_error _ h3x]
      exact ⟨rfl, by simp [reset_for_analysis]⟩
    · intro v1 c1 b1 v2 c2 b2 v3 c3 b3 e4 c4 b4 h1 h2 h3 h4
      have h1x : memoCall env.summary_model W1.summary_cache plain =
          (Except.ok v1, c1, b1) := h1
      rw [stage_summary_of_ok _ h1x]
      set W2 : World := { record_call W1 ArtifactOp.summary b1 with summary_cache := c1 } with hW2
      have h2x : memoCall env.insights_model W2.insights_cache plain =
          (Except.ok v2, c2, b2) := h2
      rw [stage_insights_of_ok _ h2x]
      set W3 : World := { record_call W2 ArtifactOp.insights b2 with insights_cache := c2 } with hW3
      have h3x : memoCall env.sentiment_model W3.sentiment_cache plain =
          (Except.ok v3, c3, b3) := h3
      rw [stage_sentiment_of_ok _ h3x]
      set W4 : World := { record_call W3 ArtifactOp.sentiment b3 with sentiment_cache := c3 } with hW4
      have h4x : memoCall env.questions_model W4.questions_cache plain =
          (Except.error e4, c4, b4) := h4
      rw [stage_questions_of_error _ h4x]
      exact ⟨rfl, by simp [reset_for_analysis]⟩
    · intro v1 c1 b1 v2 c2 b2 v3 c3 b3 v4 c4 b4 e5 c5 b5 h1 h2 h3 h4 h5
      have h1x : memoCall env.summary_model W1.summary_cache plain =
          (Except.ok v1, c1, b1) := h1
      rw [stage_summary_of_ok _ h1x]
      set W2 : World := { record_call W1 ArtifactOp.summary b1 with summary_cache := c1 } with hW2
      have h2x : memoCall env.insights_model W2.insights_cache plain =
          (Except.ok v2, c2, b2) := h2
      rw [stage_insights_of_ok _ h2x]
      set W3 : World := { record_call W2 ArtifactOp.insights b2 with insights_cache := c2 } with hW3
      have h3x : memoCall env.sentiment_model W3.sentiment_cache plain =
          (Except.ok v3, c3, b3) := h3
      rw [stage_sentiment_of_ok _ h3x]
      set W4 : World := { record_call W3 ArtifactOp.sentiment b3 with sentiment_cache := c3 } with hW4
      have h4x : memoCall env.questions_model W4.questions_cache plain =
          (Except.ok v4, c4, b4) := h4
      rw [stage_questions_of_ok _ h4x]
      set W5 : World := { record_call W4 ArtifactOp.questions b4 with questions_cache := c4 } with hW5
      have h5x : memoCall env.diarize_model W5.diarize_cache plain =
          (Except.error e5, c5, b5) := h5
      rw [stage_diarize_of_error _ h5x]
      exact ⟨rfl, by simp [reset_for_analysis]⟩

/-- Witness for C4 (amended): a concrete run where the sentiment step fails
after summary and insights succeeded; both remain stored, the rest is
empty, and the run is not marked complete. -/
theorem C4_failure_witness :
    (start_analysis sentimentFailEnv (UploadedFile.mk "a.mp3" "bytes") "English"
        emptySession emptyWorld).1 =
      { reset_for_analysis emptySession with
          transcript_result := some (TranscriptionResult.mk (some ("T:" ++ "bytes")) []),
          summary := "S:" ++ ("T:" ++ "bytes"),
          insights := "I:" ++ ("T:" ++ "bytes") } ∧
    (start_analysis sentimentFailEnv (UploadedFile.mk "a.mp3" "bytes") "English"
        emptySession emptyWorld).1.analysis_complete = false :=
  ((C4_failure_keeps_earlier_artifacts sentimentFailEnv (UploadedFile.mk "a.mp3" "bytes")
      "English" emptySession emptyWorld (some "en") rfl).2
    (TranscriptionResult.mk (some ("T:" ++ "bytes")) []) ("T:" ++ "bytes")
    [((TEMP_AUDIO_FILENAME, some "en", model_to_use "English"),
       TranscriptionResult.mk (some ("T:" ++ "bytes")) [])] true rfl rfl).2.2.1
    ("S:" ++ ("T:" ++ "bytes")) [("T:" ++ "bytes", "S:" ++ ("T:" ++ "bytes"))] true
    ("I:" ++ ("T:" ++ "bytes")) [("T:" ++ "bytes", "I:" ++ ("T:" ++ "bytes"))] true
    (AppError.api "quota") [] true rfl rfl rfl

end PodScribe
